import Mathlib

/-!
Verification of `weekly-tasks/Week4/Part1-Geth/monitor_setup.go`.

The Go program is a single `main` function: it dials a WebSocket RPC endpoint,
subscribes to new block headers (mandatory) and to pending transactions
(optional, `txSub` is set to `nil` when that subscription fails), registers an
interrupt-signal channel of capacity 1, and then runs a `select` dispatch loop
over five sources: the two event channels, the two subscription error channels
and the signal channel.

Shallow embedding notes, fixed by Go language and library semantics:

* `select` evaluates the channel operand of every `case` exactly once upon
  entering the statement, in source order (Go specification, "Select
  statements").  Hence `txSub.Err()` is evaluated on every iteration of the
  loop.  `txSub` has type `*rpc.ClientSubscription`; when the optional
  subscription failed the program sets `txSub = nil`, and
  `(*rpc.ClientSubscription).Err` reads the field `sub.err`, so the call
  dereferences a nil pointer and the program crashes with a runtime panic at
  the very first entry of the `select`, before any event can be handled.
  The model renders this as the outcome `Outcome.nilDeref`.

* `log.Fatalf` prints its message and then calls `os.Exit(1)`; deferred calls
  (here `defer rpcClient.Close()` and `defer cancel()`) do NOT run on that
  path.  Deferred calls DO run on an ordinary `return` and while a panic
  unwinds the stack.  The model records this in `deferRuns`.

* A run of the loop is driven by a schedule: a list of `Item`s saying, in
  order, which source the `select` observes next (`deliver`), when the
  operating system delivers an interrupt signal (`sigArrive`, a non-blocking
  send into the capacity-1 signal channel as performed by `signal.Notify`),
  and when the `select` picks the signal case (`selectSig`).  Machine
  integers of the source (`uint64` time, `*big.Int` height, 32-byte hashes)
  are modelled as `Nat`; a header hash stands for the digest returned by
  `Header.Hash()` and is printed through the same fixed-width lowercase hex
  rendering as `common.Hash.Hex` (`0x` followed by 64 hex digits).
-/

namespace GethMonitor

/-- Constant `NodeWSS` of the source: the WebSocket endpoint address. -/
def NodeWSS : String := "ws://127.0.0.1:8546"

/-- One second, in nanoseconds, as in package `time` (`time.Second`). -/
def timeSecond : Nat := 1000000000

/-- Constant `CONNECTION_TIMEOUT = 30 * time.Second` of the source. -/
def CONNECTION_TIMEOUT : Nat := 30 * timeSecond

/-- The dial context is `context.WithTimeout(context.Background(), CONNECTION_TIMEOUT)`
(line 37): it carries a deadline of `CONNECTION_TIMEOUT` nanoseconds. -/
def dialContextTimeout : Option Nat := some CONNECTION_TIMEOUT

/-- `ethClient.SubscribeNewHead(context.Background(), newHeadChan)` uses a background
context: no deadline. -/
def subscribeNewHeadContextTimeout : Option Nat := none

/-- `gethClient.SubscribePendingTransactions(context.Background(), pendingTxChan)` uses a
background context: no deadline. -/
def subscribePendingTxContextTimeout : Option Nat := none

/-- Lowercase hex digit for a value below 16, as produced by `hexutil`. -/
def hexDigitChar (n : Nat) : Char :=
  if n < 10 then Char.ofNat (48 + n) else Char.ofNat (87 + n)

/-- Fixed-width big-endian hex rendering of a natural number (width in digits). -/
def hexFixed : Nat → Nat → String
  | 0, _ => ""
  | w + 1, n => hexFixed w (n / 16) ++ String.mk [hexDigitChar (n % 16)]

/-- `common.Hash.Hex`: `0x` followed by the 64 lowercase hex digits of a 32-byte hash. -/
def hashHex (n : Nat) : String := "0x" ++ hexFixed 64 n

/-- The fields of `types.Header` that the program prints.  `number` models the
`*big.Int` field `Number`, `time` the `uint64` field `Time`, and `hash` the
digest computed by `Header.Hash()` (an opaque 32-byte value to this program). -/
structure Header where
  number : Nat
  hash : Nat
  time : Nat
deriving DecidableEq

/-- One line of console output.  `info` covers the `log.Println` / `fmt.Println`
status lines, `warn` the `log.Printf` warning, `fatalLog` the message printed by
`log.Fatalf` just before `os.Exit(1)`, and the last two constructors the
`fmt.Printf` event lines of the dispatch loop with their printed fields. -/
inductive Output
  | info (msg : String)
  | warn (msg : String)
  | fatalLog (msg : String)
  | newBlock (height : Nat) (hashHexStr : String) (time : Nat)
  | pendingTx (hashHexStr : String)
deriving DecidableEq

/-- An event observed by the dispatch loop on one of the four subscription-side
channels: a block header on `newHeadChan`, a transaction hash on
`pendingTxChan`, or an error on `headSub.Err()` or `txSub.Err()`. -/
inductive Ev
  | newHead (h : Header)
  | pendingTx (hash : Nat)
  | headErr (msg : String)
  | txErr (msg : String)
deriving DecidableEq

/-- One step of a schedule driving the dispatch loop.  `deliver e` means the
`select` observes event `e` as the ready case; `sigArrive` means the operating
system delivers an interrupt, which `signal.Notify` forwards as a non-blocking
send into the buffered signal channel (this can happen at any time, in
particular while the loop body is busy handling an event); `selectSig` means
the `select` picks the signal-channel case. -/
inductive Item
  | deliver (e : Ev)
  | sigArrive
  | selectSig
deriving DecidableEq

/-- `log.Println` line 33. -/
def startMsg : String := "开始连接到本地 WebSocket 节点"

/-- `fmt.Println` line 50. -/
def rpcOkMsg : String := "✅ 成功建立 RPC WebSocket 连接"

/-- `fmt.Println` line 68. -/
def headListenMsg : String := "🎧 开始监听新区块 (NewHeads)..."

/-- `fmt.Println` line 84. -/
def txListenMsg : String := "🎧 开始监听交易池 (Pending Transactions)..."

/-- `fmt.Println` line 90. -/
def bannerMsg : String := "\n📡 监控已启动，按 Ctrl+C 退出...\n"

/-- `fmt.Println` line 118. -/
def stopMsg : String := "\n🛑 停止监控，正在断开连接..."

/-- `log.Fatalf` message of the dial-failure path (lines 42-47), with the `%v`
verb replaced by the error text. -/
def dialFatalMsg (err : String) : String :=
  "❌ 无法连接到本地 WebSocket 节点: " ++ err ++
  "\n   可能的原因：\n   1. 本地 Geth 节点未启动" ++
  "\n   2. WebSocket 未启用（需要在启动 Geth 时添加 --ws 参数）" ++
  "\n   3. 端口配置错误（默认 WebSocket 端口为 8546）" ++
  "\n   提示：启动 Geth 节点示例：geth --ws --ws.addr 0.0.0.0 --ws.port 8546"

/-- `log.Fatalf` message of the mandatory-subscription failure path (line 66). -/
def headSubFatalMsg (err : String) : String := "❌ 订阅新区块失败: " ++ err

/-- `log.Printf` warning of the optional-subscription failure path (lines 74-78). -/
def txSubWarnMsg (err : String) : String :=
  "⚠️  警告: 订阅 Pending 交易失败: " ++ err ++
  "\n   可能的原因：\n   1. Geth 节点版本过旧，不支持此功能" ++
  "\n   2. 节点配置问题\n   建议：检查 Geth 版本和配置"

/-- `log.Fatalf` message of the steady-state head-subscription error case (line 110). -/
def headSubErrFatalMsg (err : String) : String := "❌ 区块订阅异常中断: " ++ err

/-- `log.Fatalf` message of the steady-state tx-subscription error case (line 113). -/
def txSubErrFatalMsg (err : String) : String := "❌ 交易订阅异常中断: " ++ err

/-- How a run of the process ends (or has not ended yet). -/
inductive Outcome
  | normalExit
  | fatalExit (msg : String)
  | nilDeref
  | blocked
deriving DecidableEq

/-- Result of running the dispatch loop under a schedule: the console lines it
printed, how it ended, and whether `Unsubscribe` was called on each handle. -/
structure LoopRes where
  outputs : List Output
  outcome : Outcome
  headUnsub : Bool
  txUnsub : Bool
deriving DecidableEq

/-- Capacity of the signal channel: `sigChan := make(chan os.Signal, 1)` (line 86). -/
def sigChanCapacity : Nat := 1

/-- The non-blocking send performed by `signal.Notify` when a signal arrives:
buffered if the channel has room, dropped otherwise. -/
def sigTrySend (buf : List Unit) : List Unit :=
  if buf.length < sigChanCapacity then buf ++ [()] else buf

/-- The interrupt case of the `select` (lines 117-123): print the stop message,
call `headSub.Unsubscribe()`, call `txSub.Unsubscribe()` only under the guard
`txSub != nil`, and return from `main`.  `txActive` renders `txSub != nil`. -/
def shutdownRes (txActive : Bool) : LoopRes :=
  { outputs := [Output.info stopMsg]
    outcome := Outcome.normalExit
    headUnsub := true
    txUnsub := txActive }

/-- The dispatch loop (lines 91-124) driven by a schedule.  Each entry of the
`select` first evaluates the channel operands of all cases; when the optional
subscription failed (`txActive = false`, that is `txSub == nil`) the operand
`txSub.Err()` dereferences a nil pointer and the program panics before
waiting on anything, so every schedule ends in `Outcome.nilDeref`.  Otherwise
the loop handles the scheduled item: events are printed, a steady-state
subscription error is logged and ends the process through `log.Fatalf`
(the guard `txSub != nil` inside the tx-error case holds because
`txActive = true` there), an arriving signal is buffered by `sigTrySend`, and
picking the signal case with a buffered signal runs the shutdown handler.
Picking the signal case with an empty buffer is not possible in Go (the case
is not ready); such a schedule just leaves the loop waiting (`blocked`), as
does an exhausted schedule: the `select` has no timeout case. -/
def dispatchLoop : Bool → List Unit → List Item → LoopRes
  | false, _, _ => { outputs := [], outcome := Outcome.nilDeref, headUnsub := false, txUnsub := false }
  | true, _, [] => { outputs := [], outcome := Outcome.blocked, headUnsub := false, txUnsub := false }
  | true, sig, Item.sigArrive :: rest => dispatchLoop true (sigTrySend sig) rest
  | true, sig, Item.deliver (Ev.newHead h) :: rest =>
      let r := dispatchLoop true sig rest
      { r with outputs := Output.newBlock h.number (hashHex h.hash) h.time :: r.outputs }
  | true, sig, Item.deliver (Ev.pendingTx x) :: rest =>
      let r := dispatchLoop true sig rest
      { r with outputs := Output.pendingTx (hashHex x) :: r.outputs }
  | true, _, Item.deliver (Ev.headErr m) :: _ =>
      { outputs := [Output.fatalLog (headSubErrFatalMsg m)]
        outcome := Outcome.fatalExit (headSubErrFatalMsg m)
        headUnsub := false, txUnsub := false }
  | true, _, Item.deliver (Ev.txErr m) :: _ =>
      { outputs := [Output.fatalLog (txSubErrFatalMsg m)]
        outcome := Outcome.fatalExit (txSubErrFatalMsg m)
        headUnsub := false, txUnsub := false }
  | true, sig, Item.selectSig :: _ =>
      match sig with
      | [] => { outputs := [], outcome := Outcome.blocked, headUnsub := false, txUnsub := false }
      | _ :: _ => shutdownRes true

/-- Whether the deferred calls of `main` (in particular `defer rpcClient.Close()`)
run for a given outcome: they run on an ordinary return and during panic
unwinding, and are skipped by `os.Exit(1)` inside `log.Fatalf`; a blocked loop
has not exited at all. -/
def deferRuns : Outcome → Bool
  | Outcome.normalExit => true
  | Outcome.nilDeref => true
  | Outcome.fatalExit _ => false
  | Outcome.blocked => false

/-- Result of a whole run of `main`: console output, outcome, whether each
subscription was attempted, whether each handle was unsubscribed, and whether
the RPC connection was acquired and closed. -/
structure MainRes where
  outputs : List Output
  outcome : Outcome
  headAttempted : Bool
  txAttempted : Bool
  headUnsub : Bool
  txUnsub : Bool
  rpcAcquired : Bool
  rpcClosed : Bool
deriving DecidableEq

/-- The console lines of a fully successful startup, in source order:
lines 33, 50, 68, 84 and 90. -/
def setupOutputsBothOk : List Output :=
  [Output.info startMsg, Output.info rpcOkMsg, Output.info headListenMsg,
   Output.info txListenMsg, Output.info bannerMsg]

/-- The function `main` of `monitor_setup.go`.  The three `Option String`
arguments are the results of the three fallible external calls, in program
order: `rpc.DialContext` (line 40), `ethClient.SubscribeNewHead` (line 64) and
`gethClient.SubscribePendingTransactions` (line 72); `some e` is the error `e`,
`none` is success.  `items` is the schedule under which the dispatch loop runs.
A dial failure is fatal before any subscription is attempted; a head
subscription failure is fatal before the optional subscription is attempted;
an optional-subscription failure logs a warning, sets `txSub = nil`
(`txActive = false`) and proceeds to the loop.  On the fatal `log.Fatalf`
paths the deferred `rpcClient.Close()` does not run. -/
def main (dialErr headSubErr txSubErr : Option String) (items : List Item) : MainRes :=
  match dialErr with
  | some e =>
      { outputs := [Output.info startMsg, Output.fatalLog (dialFatalMsg e)]
        outcome := Outcome.fatalExit (dialFatalMsg e)
        headAttempted := false, txAttempted := false
        headUnsub := false, txUnsub := false
        rpcAcquired := false, rpcClosed := false }
  | none =>
    match headSubErr with
    | some e =>
        { outputs := [Output.info startMsg, Output.info rpcOkMsg,
                      Output.fatalLog (headSubFatalMsg e)]
          outcome := Outcome.fatalExit (headSubFatalMsg e)
          headAttempted := true, txAttempted := false
          headUnsub := false, txUnsub := false
          rpcAcquired := true, rpcClosed := false }
    | none =>
      match txSubErr with
      | some e =>
          let r := dispatchLoop false [] items
          { outputs := [Output.info startMsg, Output.info rpcOkMsg,
                        Output.info headListenMsg, Output.warn (txSubWarnMsg e),
                        Output.info bannerMsg] ++ r.outputs
            outcome := r.outcome
            headAttempted := true, txAttempted := true
            headUnsub := r.headUnsub, txUnsub := r.txUnsub
            rpcAcquired := true, rpcClosed := deferRuns r.outcome }
      | none =>
          let r := dispatchLoop true [] items
          { outputs := setupOutputsBothOk ++ r.outputs
            outcome := r.outcome
            headAttempted := true, txAttempted := true
            headUnsub := r.headUnsub, txUnsub := r.txUnsub
            rpcAcquired := true, rpcClosed := deferRuns r.outcome }

/-- The console line the dispatch loop prints for an observed event; error
events are rendered as the message `log.Fatalf` prints before exiting. -/
def evPrint : Ev → Output
  | Ev.newHead h => Output.newBlock h.number (hashHex h.hash) h.time
  | Ev.pendingTx x => Output.pendingTx (hashHex x)
  | Ev.headErr m => Output.fatalLog (headSubErrFatalMsg m)
  | Ev.txErr m => Output.fatalLog (txSubErrFatalMsg m)

/-- An event of the two data streams, as opposed to an error event. -/
def pureEv : Ev → Bool
  | Ev.newHead _ => true
  | Ev.pendingTx _ => true
  | Ev.headErr _ => false
  | Ev.txErr _ => false

/-- A schedule item that neither ends the loop nor picks the signal case. -/
def benign : Item → Bool
  | Item.sigArrive => true
  | Item.deliver (Ev.newHead _) => true
  | Item.deliver (Ev.pendingTx _) => true
  | _ => false

/-- The console line a benign schedule item contributes, if any. -/
def itemPrint : Item → Option Output
  | Item.deliver (Ev.newHead h) => some (Output.newBlock h.number (hashHex h.hash) h.time)
  | Item.deliver (Ev.pendingTx x) => some (Output.pendingTx (hashHex x))
  | _ => none

/-! Helper lemmas about the dispatch loop. -/

theorem dispatchLoop_pure (evs : List Ev) (hp : ∀ e ∈ evs, pureEv e = true) (sig : List Unit) :
    dispatchLoop true sig (evs.map Item.deliver)
      = { outputs := evs.map evPrint, outcome := Outcome.blocked,
          headUnsub := false, txUnsub := false } := by
  induction evs generalizing sig with
  | nil => rfl
  | cons e rest ih =>
    have he : pureEv e = true := hp e (List.mem_cons_self e rest)
    have hrest : ∀ x ∈ rest, pureEv x = true := fun x hx => hp x (List.mem_cons_of_mem e hx)
    cases e with
    | newHead h => simp [dispatchLoop, ih hrest, evPrint]
    | pendingTx x => simp [dispatchLoop, ih hrest, evPrint]
    | headErr m => simp [pureEv] at he
    | txErr m => simp [pureEv] at he

theorem dispatchLoop_benign_headErr (pre : List Item) (hb : ∀ i ∈ pre, benign i = true)
    (m : String) (rest : List Item) (sig : List Unit) :
    dispatchLoop true sig (pre ++ Item.deliver (Ev.headErr m) :: rest)
      = { outputs := pre.filterMap itemPrint ++ [Output.fatalLog (headSubErrFatalMsg m)],
          outcome := Outcome.fatalExit (headSubErrFatalMsg m),
          headUnsub := false, txUnsub := false } := by
  induction pre generalizing sig with
  | nil => rfl
  | cons i pre ih =>
    have hi : benign i = true := hb i (List.mem_cons_self i pre)
    have hb2 : ∀ x ∈ pre, benign x = true := fun x hx => hb x (List.mem_cons_of_mem i hx)
    cases i with
    | sigArrive => simp [dispatchLoop, ih hb2, itemPrint]
    | selectSig => simp [benign] at hi
    | deliver e =>
      cases e with
      | newHead h => simp [dispatchLoop, ih hb2, itemPrint]
      | pendingTx x => simp [dispatchLoop, ih hb2, itemPrint]
      | headErr m2 => simp [benign] at hi
      | txErr m2 => simp [benign] at hi

theorem loop_exit_inv (txA : Bool) (sig : List Unit) (items : List Item) :
    ((dispatchLoop txA sig items).outcome = Outcome.normalExit →
        (dispatchLoop txA sig items).headUnsub = true
          ∧ (dispatchLoop txA sig items).txUnsub = true)
    ∧ (∀ m, (dispatchLoop txA sig items).outcome = Outcome.fatalExit m →
        (dispatchLoop txA sig items).headUnsub = false
          ∧ (dispatchLoop txA sig items).txUnsub = false)
    ∧ ((dispatchLoop txA sig items).outcome = Outcome.nilDeref →
        (dispatchLoop txA sig items).headUnsub = false
          ∧ (dispatchLoop txA sig items).txUnsub = false) := by
  induction items generalizing sig with
  | nil => cases txA <;> simp [dispatchLoop]
  | cons i rest ih =>
    cases txA with
    | false => simp [dispatchLoop]
    | true =>
      cases i with
      | sigArrive => simpa only [dispatchLoop] using ih (sigTrySend sig)
      | selectSig =>
        cases sig with
        | nil => simp [dispatchLoop]
        | cons s sig2 => simp [dispatchLoop, shutdownRes]
      | deliver e =>
        cases e with
        | newHead h => simpa only [dispatchLoop] using ih sig
        | pendingTx x => simpa only [dispatchLoop] using ih sig
        | headErr m => simp [dispatchLoop]
        | txErr m => simp [dispatchLoop]

/-! The claims. -/

/-- C1: the claim fails on the code.  When the optional pending-transaction
subscription fails at setup the program does log the warning, but on the very
first iteration of the dispatch loop the select statement evaluates the operand
of the tx-error case on the nil subscription handle and crashes with a
nil-pointer dereference, so a pending block-header event is never printed and
the program does not continue operating on the block subscription alone. -/
theorem c1_txsub_nil_first_select_crashes :
    (main none none (some "notifications not supported")
        [Item.deliver (Ev.newHead ⟨100, 170, 1234⟩)]).outcome = Outcome.nilDeref
    ∧ (main none none (some "notifications not supported")
        [Item.deliver (Ev.newHead ⟨100, 170, 1234⟩)]).outputs
      = [Output.info startMsg, Output.info rpcOkMsg, Output.info headListenMsg,
         Output.warn (txSubWarnMsg "notifications not supported"), Output.info bannerMsg] :=
  ⟨rfl, rfl⟩

/-- C2 counterexample: on the fatal exit path taken after a steady-state error
of the mandatory subscription, the process exits through a fatal log without
running the deferred connection close and without unsubscribing either handle,
so the acquired resources are not released on this exit path. -/
theorem c2_fatal_path_releases_nothing :
    (main none none none [Item.deliver (Ev.headErr "connection reset by peer")]).outcome
        = Outcome.fatalExit (headSubErrFatalMsg "connection reset by peer")
    ∧ (main none none none [Item.deliver (Ev.headErr "connection reset by peer")]).rpcAcquired
        = true
    ∧ (main none none none [Item.deliver (Ev.headErr "connection reset by peer")]).rpcClosed
        = false
    ∧ (main none none none [Item.deliver (Ev.headErr "connection reset by peer")]).headUnsub
        = false
    ∧ (main none none none [Item.deliver (Ev.headErr "connection reset by peer")]).txUnsub
        = false :=
  ⟨rfl, rfl, rfl, rfl, rfl⟩

/-- C2 amended: on the graceful-interrupt exit path both handles are
unsubscribed and the deferred connection close runs; on every fatal-log exit
path nothing is released (the deferred close is skipped and no unsubscribe
happens); on the nil-dereference crash path the deferred close runs while the
panic unwinds but nothing is unsubscribed. -/
theorem c2_release_on_exit_paths (d h t : Option String) (items : List Item) :
    ((main d h t items).outcome = Outcome.normalExit →
        (main d h t items).headUnsub = true ∧ (main d h t items).txUnsub = true
          ∧ (main d h t items).rpcClosed = true)
    ∧ (∀ m, (main d h t items).outcome = Outcome.fatalExit m →
        (main d h t items).headUnsub = false ∧ (main d h t items).txUnsub = false
          ∧ (main d h t items).rpcClosed = false)
    ∧ ((main d h t items).outcome = Outcome.nilDeref →
        (main d h t items).headUnsub = false ∧ (main d h t items).txUnsub = false
          ∧ (main d h t items).rpcClosed = true) := by
  rcases d with _ | e
  · rcases h with _ | e
    · rcases t with _ | e
      · have hinv := loop_exit_inv true [] items
        simp only [main]
        refine ⟨?_, ?_, ?_⟩
        · intro hn
          exact ⟨(hinv.1 hn).1, (hinv.1 hn).2, by rw [hn]; rfl⟩
        · intro m hm
          exact ⟨(hinv.2.1 m hm).1, (hinv.2.1 m hm).2, by rw [hm]; rfl⟩
        · intro hn
          exact ⟨(hinv.2.2 hn).1, (hinv.2.2 hn).2, by rw [hn]; rfl⟩
      · have hinv := loop_exit_inv false [] items
        simp only [main]
        refine ⟨?_, ?_, ?_⟩
        · intro hn
          exact ⟨(hinv.1 hn).1, (hinv.1 hn).2, by rw [hn]; rfl⟩
        · intro m hm
          exact ⟨(hinv.2.1 m hm).1, (hinv.2.1 m hm).2, by rw [hm]; rfl⟩
        · intro hn
          exact ⟨(hinv.2.2 hn).1, (hinv.2.2 hn).2, by rw [hn]; rfl⟩
    · simp [main]
  · simp [main]

/-- C2 amended witness: the graceful run releases everything and the fatal run
releases nothing. -/
theorem c2_release_on_exit_paths_witness :
    (main none none none [Item.sigArrive, Item.selectSig]).headUnsub = true
    ∧ (main none none none [Item.sigArrive, Item.selectSig]).rpcClosed = true
    ∧ (main none none none [Item.deliver (Ev.headErr "eof")]).rpcClosed = false := by
  have h1 := (c2_release_on_exit_paths none none none [Item.sigArrive, Item.selectSig]).1 rfl
  have h2 := (c2_release_on_exit_paths none none none
      [Item.deliver (Ev.headErr "eof")]).2.1 (headSubErrFatalMsg "eof") rfl
  exact ⟨h1.1, h1.2.2, h2.2.2⟩

/-- C3: with the optional subscription healthy, whenever the dispatch loop
observes a steady-state error of the mandatory head subscription, after any
amount of benign activity, the process logs the error fatally and terminates;
nothing scheduled after the error is processed. -/
theorem c3_head_error_always_fatal (pre : List Item) (hb : ∀ i ∈ pre, benign i = true)
    (m : String) (rest : List Item) :
    (main none none none (pre ++ Item.deliver (Ev.headErr m) :: rest)).outcome
        = Outcome.fatalExit (headSubErrFatalMsg m)
    ∧ (main none none none (pre ++ Item.deliver (Ev.headErr m) :: rest)).outputs
        = setupOutputsBothOk ++ pre.filterMap itemPrint
            ++ [Output.fatalLog (headSubErrFatalMsg m)] := by
  have hloop := dispatchLoop_benign_headErr pre hb m rest []
  constructor
  · simp only [main, hloop]
  · simp only [main, hloop]
    simp [List.append_assoc]

/-- C3 witness: a block event, then a head-subscription error, then a pending
transaction that is never reached. -/
theorem c3_head_error_always_fatal_witness :
    (main none none none ([Item.deliver (Ev.newHead ⟨1, 2, 3⟩)]
        ++ Item.deliver (Ev.headErr "eof") :: [Item.deliver (Ev.pendingTx 9)])).outcome
      = Outcome.fatalExit (headSubErrFatalMsg "eof") :=
  (c3_head_error_always_fatal [Item.deliver (Ev.newHead ⟨1, 2, 3⟩)] (by decide) "eof"
      [Item.deliver (Ev.pendingTx 9)]).1

/-- C4: the claim fails on the code.  With the optional subscription never
established, an interrupt delivered to the signal channel is never observed:
the select statement crashes on the nil tx-subscription operand before waiting,
so no unsubscribe is performed and the process does not return normally. -/
theorem c4_interrupt_after_txsub_failure_crashes :
    (main none none (some "not supported") [Item.sigArrive, Item.selectSig]).outcome
        = Outcome.nilDeref
    ∧ (main none none (some "not supported") [Item.sigArrive, Item.selectSig]).headUnsub = false
    ∧ (main none none (some "not supported") [Item.sigArrive, Item.selectSig]).txUnsub = false :=
  ⟨rfl, rfl, rfl⟩

/-- C5: with both subscriptions established, for every interleaving of the two
event streams the dispatch loop prints exactly one line per event, preserving
arrival order; a block event prints its height, lowercase hex hash and
timestamp, and a pending transaction prints its lowercase hex hash. -/
theorem c5_events_printed_once_in_order (evs : List Ev)
    (hp : ∀ e ∈ evs, pureEv e = true) :
    (main none none none (evs.map Item.deliver)).outputs
        = setupOutputsBothOk ++ evs.map evPrint
    ∧ (∀ h : Header, evPrint (Ev.newHead h) = Output.newBlock h.number (hashHex h.hash) h.time)
    ∧ (∀ x : Nat, evPrint (Ev.pendingTx x) = Output.pendingTx (hashHex x)) := by
  refine ⟨?_, fun h => rfl, fun x => rfl⟩
  simp only [main, dispatchLoop_pure evs hp []]

/-- C5 witness: a block event followed by a pending transaction, printed in
order. -/
theorem c5_events_printed_once_in_order_witness :
    (main none none none
        ([Ev.newHead ⟨100, 170, 1234⟩, Ev.pendingTx 7].map Item.deliver)).outputs
      = setupOutputsBothOk ++ [Ev.newHead ⟨100, 170, 1234⟩, Ev.pendingTx 7].map evPrint :=
  (c5_events_printed_once_in_order [Ev.newHead ⟨100, 170, 1234⟩, Ev.pendingTx 7]
      (by decide)).1

/-- C6: startup is strictly sequential: a dial failure is fatal before either
subscription is attempted, and a mandatory-subscription failure is fatal before
the optional subscription is attempted. -/
theorem c6_setup_sequential_fatal :
    (∀ (e : String) (hres tres : Option String) (items : List Item),
        (main (some e) hres tres items).outcome = Outcome.fatalExit (dialFatalMsg e)
        ∧ (main (some e) hres tres items).headAttempted = false
        ∧ (main (some e) hres tres items).txAttempted = false)
    ∧ (∀ (e : String) (tres : Option String) (items : List Item),
        (main none (some e) tres items).outcome = Outcome.fatalExit (headSubFatalMsg e)
        ∧ (main none (some e) tres items).headAttempted = true
        ∧ (main none (some e) tres items).txAttempted = false) :=
  ⟨fun _ _ _ _ => ⟨rfl, rfl, rfl⟩, fun _ _ _ => ⟨rfl, rfl, rfl⟩⟩

/-- C6 witness: concrete dial and head-subscription failures. -/
theorem c6_setup_sequential_fatal_witness :
    (main (some "connection refused") none none []).txAttempted = false
    ∧ (main none (some "subscribe failed") none []).txAttempted = false :=
  ⟨(c6_setup_sequential_fatal.1 "connection refused" none none []).2.2,
   (c6_setup_sequential_fatal.2 "subscribe failed" none []).2.2⟩

/-- C7: the claim fails on the code.  While the optional subscription is active
its steady-state error is indeed fatal, but when it was never established the
error case is not ignored: the select statement evaluates the error-channel
operand on the nil handle and the program crashes immediately on entering the
loop, even with nothing pending at all. -/
theorem c7_txsub_error_case_crashes_when_inactive :
    (main none none (some "not supported") []).outcome = Outcome.nilDeref
    ∧ (main none none none [Item.deliver (Ev.txErr "tx sub broken")]).outcome
        = Outcome.fatalExit (txSubErrFatalMsg "tx sub broken") :=
  ⟨rfl, rfl⟩

/-- C8: the interrupt handler of the dispatch loop guards the optional
unsubscribe: applied to a never-established optional subscription it performs
no unsubscribe on it, still unsubscribes the head subscription, prints the stop
message and returns normally, a safe no-op on the missing handle. -/
theorem c8_shutdown_guarded_noop :
    (shutdownRes false).txUnsub = false
    ∧ (shutdownRes false).headUnsub = true
    ∧ (shutdownRes false).outcome = Outcome.normalExit
    ∧ (shutdownRes false).outputs = [Output.info stopMsg] :=
  ⟨rfl, rfl, rfl, rfl⟩

/-- C9: the 30-second timeout is attached only to the dial context; both
subscription calls use a background context with no deadline, and the dispatch
loop has no timeout source: with nothing scheduled it stays blocked. -/
theorem c9_timeout_only_on_dial :
    CONNECTION_TIMEOUT = 30 * timeSecond
    ∧ dialContextTimeout = some CONNECTION_TIMEOUT
    ∧ subscribeNewHeadContextTimeout = none
    ∧ subscribePendingTxContextTimeout = none
    ∧ ∀ sig : List Unit, (dispatchLoop true sig []).outcome = Outcome.blocked :=
  ⟨rfl, rfl, rfl, rfl, fun _ => rfl⟩

/-- C9 witness: the loop with an empty signal buffer and nothing scheduled is
blocked. -/
theorem c9_timeout_only_on_dial_witness :
    (dispatchLoop true [] []).outcome = Outcome.blocked :=
  c9_timeout_only_on_dial.2.2.2.2 []

/-- C10: the signal channel has capacity one, so a signal sent into the empty
buffer is retained, and in a run where the interrupt arrives while the loop is
busy handling a block event the signal is observed at the next wait point: the
loop shuts down gracefully, unsubscribing both handles. -/
theorem c10_sigchan_buffer_retains_interrupt (h : Header) :
    sigChanCapacity = 1
    ∧ sigTrySend [] = [()]
    ∧ (main none none none
          [Item.deliver (Ev.newHead h), Item.sigArrive, Item.selectSig]).outcome
        = Outcome.normalExit
    ∧ (main none none none
          [Item.deliver (Ev.newHead h), Item.sigArrive, Item.selectSig]).headUnsub = true
    ∧ (main none none none
          [Item.deliver (Ev.newHead h), Item.sigArrive, Item.selectSig]).txUnsub = true
    ∧ (main none none none
          [Item.deliver (Ev.newHead h), Item.sigArrive, Item.selectSig]).outputs
        = setupOutputsBothOk
            ++ [Output.newBlock h.number (hashHex h.hash) h.time, Output.info stopMsg] :=
  ⟨rfl, rfl, rfl, rfl, rfl, rfl⟩

/-- C10 witness: a concrete header. -/
theorem c10_sigchan_buffer_retains_interrupt_witness :
    (main none none none [Item.deliver (Ev.newHead ⟨100, 170, 1234⟩), Item.sigArrive,
        Item.selectSig]).outcome = Outcome.normalExit :=
  (c10_sigchan_buffer_retains_interrupt ⟨100, 170, 1234⟩).2.2.1

end GethMonitor
